import Mathlib

/-!
Verification development for the Lo2T alert-ingestion system.

The Python sources are shallowly embedded: the SQLite events table becomes a
list of `Row` records, the mutating methods of `Lo2tDb` become functions from
store state to store state (with the wall-clock time passed explicitly), the
decoders become functions from parsed records to normalized `Event` values,
and code paths that raise Python exceptions return `Except PyErr`.  Calls into
third-party libraries (astropy, astropy_healpix, dateutil, base64) are fields
of an explicit `ExtLib` interface record, so theorems quantify over any
implementation of those libraries; pure-arithmetic library helpers
(`uniq_to_level_ipix`, `level_to_nside`) are translated concretely.
-/

namespace Lo2t

/-- Python exception kinds raised by the embedded code paths. -/
inductive PyErr where
  | typeError
  | valueError
  | keyError
  | attributeError
  | jsonDecodeError
  | nameError
deriving DecidableEq, Repr

/-- An astropy angular quantity: a numeric value together with its unit
string (for example `"rad"` or `"deg"`), as produced by
`astropy_healpix.healpix_to_lonlat` and consumed by `Lo2tDb.set_position`. -/
structure Angle where
  value : Rat
  unit : String
deriving DecidableEq, Repr

/-- A row of the HEALPix sky table embedded in a gravitational-wave notice:
the hierarchical `UNIQ` pixel index and the `PROBDENSITY` of that pixel
(`decode/ligo.py` reads exactly these two columns). -/
structure SkyRow where
  uniq : Nat
  probdensity : Rat
deriving DecidableEq, Repr

/-- The sky table decoded from the base64 skymap payload: its rows and the
optional `DISTMEAN` / `DISTSTD` metadata entries. -/
structure SkyTable where
  rows : List SkyRow
  distmean : Option Rat
  diststd : Option Rat
deriving DecidableEq, Repr

/-- Interface to the external libraries used by the sources (astropy_healpix,
astropy tables, base64, datetime parsing).  These are third-party code, not
part of this repository, so they are modelled as an abstract record; theorems
hold for every implementation.
  * `lonlat_to_healpix ra dec nside` — `self.hp.lonlat_to_healpix(ra, dec)`
    for an `ah.HEALPix(nside=nside, order='nested')` object (`db.py`).
  * `healpix_to_lonlat ipix nside` — `ah.healpix_to_lonlat(ipix, nside,
    order="nested")` (`decode/ligo.py`).
  * `neighbours i nside` — `ah.neighbours(i, nside=nside)` (ring order, the
    default, since `db.py` passes no `order` argument).
  * `b64decode` — `base64.b64decode`, may raise on malformed input.
  * `table_read` — `astropy.table.Table.read` on the decoded skymap bytes.
  * `strptime s` — `datetime.datetime.strptime(s, "%Y-%m-%dT%H:%M:%S.%fZ")`,
    returned as its stored timestamp representation; raises on mismatch.
  * `dateparse s` — `dateutil.parser.parse(s)`: on success, the parsed
    datetime rendered as the string it prints to in file names
    (`str(datetime)`); on unparseable input it raises `ParserError`, a
    `ValueError` subclass. -/
structure ExtLib where
  lonlat_to_healpix : Angle → Angle → Nat → Int
  healpix_to_lonlat : Nat → Nat → Angle × Angle
  neighbours : Int → Nat → List Int
  b64decode : String → Except PyErr (List Nat)
  table_read : List Nat → Except PyErr SkyTable
  strptime : String → Except PyErr String
  dateparse : String → Except PyErr String

/-- The normalized event, as built by `LigoProcessor` (`decode/ligo.py`):
its `__init__` assigns every attribute, absent information being the value
`None`, so each optional attribute is an `Option` field.  `index` and `topic`
are always present by the time `Lo2tDb.add_event` is reached (`decode_message`
sets `topic`; `parse_notice` sets `index`).  The base-class `healpix_index`
attribute stays `None` for every decoder in this repository, so it is not a
field here (see `set_healpix_index`). -/
structure Event where
  index : String
  topic : String
  alert_type : Option String
  time : Option String
  position : Option (Angle × Angle)
  position_err : Option (Rat × Rat)
  distance : Option (Rat × Rat)
  terrestrial_chance : Option Rat
  false_alarm_rate : Option Rat
  has_neutron_star : Option Rat
  has_remnant : Option Rat
  skymap : Option (List Nat)
deriving DecidableEq, Repr

/-- One row of the events table, mirroring the `CREATE TABLE` statement in
`Lo2tDb.__init__` column for column (`data` is the skymap blob).  Creation
and modification times are modelled as abstract clock ticks (`Nat`) supplied
to each store operation, standing for the `datetime.datetime.now()` strings
the source writes. -/
structure Row where
  id : String
  topic : Option String
  alert_type : Option String
  time_utc : Option String
  time_created : Option Nat
  time_modified : Option Nat
  ra : Option Rat
  ra_err : Option Rat
  ra_unit : Option String
  dec : Option Rat
  dec_err : Option Rat
  dec_unit : Option String
  healpix_index : Option Int
  terrestrial_chance : Option Rat
  false_alarm_rate : Option Rat
  has_neutron_star : Option Rat
  has_remnant : Option Rat
  data : Option (List Nat)
deriving DecidableEq, Repr

/-- An SQL `UPDATE ... WHERE id = ?`: apply `f` to every row whose `id`
matches (the `id` column is the primary key, so at most one row matches in a
well-formed store, but the embedding keeps the SQL semantics). -/
def updateRow (rows : List Row) (i : String) (f : Row → Row) : List Row :=
  rows.map fun r => if r.id = i then f r else r

/-- Per-row effect of `Lo2tDb.set_alert_type`: the `alert_type` attribute
exists on every decoder (class attribute default `None`), so the `UPDATE`
always runs with the event's value, and `commit(index)` then stamps
`time_modified`. -/
def set_alert_type_row (now : Nat) (e : Event) (r : Row) : Row :=
  { r with alert_type := e.alert_type, time_modified := some now }

/-- Per-row effect of `Lo2tDb.set_time`: the `time` attribute always exists
(base-class default `None`), so `time_utc` is overwritten with the event's
value (possibly NULL) and `time_modified` is stamped by `commit(index)`. -/
def set_time_row (now : Nat) (e : Event) (r : Row) : Row :=
  { r with time_utc := e.time, time_modified := some now }

/-- Per-row effect of `Lo2tDb.set_position`.  When the event's position is
`(None, None)`, evaluating `ra.unit` raises `AttributeError` on `None`, the
method returns `-2` before its `UPDATE`, and the row (including
`time_modified`) is untouched.  With a present position the four coordinate
columns are written from the quantities' values and units. -/
def set_position_row (now : Nat) (e : Event) (r : Row) : Row :=
  match e.position with
  | none => r
  | some (a, d) =>
      { r with ra := some a.value, ra_unit := some a.unit,
               dec := some d.value, dec_unit := some d.unit,
               time_modified := some now }

/-- Per-row effect of `Lo2tDb.set_position_error`: the tuple always unpacks
(the attribute defaults to `(None, None)`), the `.value` stripping failure on
`None` is swallowed by `except AttributeError: pass`, and the `UPDATE` then
runs unconditionally — so the error columns always receive the event's
values, NULL included. -/
def set_position_error_row (now : Nat) (e : Event) (r : Row) : Row :=
  { r with ra_err := e.position_err.map (fun p => p.1),
           dec_err := e.position_err.map (fun p => p.2),
           time_modified := some now }

/-- Per-row effect of `Lo2tDb.set_healpix_index`.  No decoder in this
repository assigns the `healpix_index` attribute, so `int(event.healpix_index)`
is `int(None)` and raises `TypeError`; the fallback recomputes the index from
the event's position with `self.hp.lonlat_to_healpix`.  When the position is
`(None, None)` that call raises `AttributeError` (no `.to_value` on `None`),
which is caught, and the method returns `-1` with the row untouched. -/
def set_healpix_index_row (lib : ExtLib) (nside : Nat) (now : Nat) (e : Event)
    (r : Row) : Row :=
  match e.position with
  | none => r
  | some (a, d) =>
      { r with healpix_index := some (lib.lonlat_to_healpix a d nside),
               time_modified := some now }

/-- Per-row effect of `Lo2tDb.set_skymap` (via `store_data` on the `data`
column): the `skymap` attribute exists on every JSON decoder, so the value
(possibly NULL) is always written. -/
def set_skymap_row (now : Nat) (e : Event) (r : Row) : Row :=
  { r with data := e.skymap, time_modified := some now }

/-- Per-row effect of `Lo2tDb.set_terrestrial_chance` (via `store_data`). -/
def set_terrestrial_chance_row (now : Nat) (e : Event) (r : Row) : Row :=
  { r with terrestrial_chance := e.terrestrial_chance, time_modified := some now }

/-- Per-row effect of `Lo2tDb.set_false_alarm_rate` (via `store_data`). -/
def set_false_alarm_rate_row (now : Nat) (e : Event) (r : Row) : Row :=
  { r with false_alarm_rate := e.false_alarm_rate, time_modified := some now }

/-- Per-row effect of `Lo2tDb.set_has_neutron_star` (via `store_data`). -/
def set_has_neutron_star_row (now : Nat) (e : Event) (r : Row) : Row :=
  { r with has_neutron_star := e.has_neutron_star, time_modified := some now }

/-- Per-row effect of `Lo2tDb.set_has_remnant` (via `store_data`). -/
def set_has_remnant_row (now : Nat) (e : Event) (r : Row) : Row :=
  { r with has_remnant := e.has_remnant, time_modified := some now }

/-- The row inserted by `Lo2tDb.create_event`: `INSERT INTO ... (id)` creates
a row with every other column NULL, the following `UPDATE`s set `topic` and
`time_created`, and `commit(index)` stamps `time_modified`.  `create_event`
is only reached when no row with this id exists, so the `UPDATE ... WHERE id`
statements touch exactly the fresh row. -/
def new_event_row (now : Nat) (e : Event) : Row :=
  { id := e.index, topic := some e.topic, alert_type := none, time_utc := none,
    time_created := some now, time_modified := some now,
    ra := none, ra_err := none, ra_unit := none,
    dec := none, dec_err := none, dec_unit := none,
    healpix_index := none, terrestrial_chance := none,
    false_alarm_rate := none, has_neutron_star := none,
    has_remnant := none, data := none }

/-- `Lo2tDb.create_event` (the insert path of `add_event`). -/
def create_event (rows : List Row) (now : Nat) (e : Event) : List Row :=
  rows ++ [new_event_row now e]

/-- The setter cascade that `Lo2tDb.add_event` runs after the existence
check, in source order. -/
def run_setters (lib : ExtLib) (nside : Nat) (rows : List Row) (now : Nat)
    (e : Event) : List Row :=
  let rows := updateRow rows e.index (set_alert_type_row now e)
  let rows := updateRow rows e.index (set_time_row now e)
  let rows := updateRow rows e.index (set_position_row now e)
  let rows := updateRow rows e.index (set_position_error_row now e)
  let rows := updateRow rows e.index (set_healpix_index_row lib nside now e)
  let rows := updateRow rows e.index (set_skymap_row now e)
  let rows := updateRow rows e.index (set_terrestrial_chance_row now e)
  let rows := updateRow rows e.index (set_false_alarm_rate_row now e)
  let rows := updateRow rows e.index (set_has_neutron_star_row now e)
  updateRow rows e.index (set_has_remnant_row now e)

/-- `Lo2tDb.add_event`: look the id up; insert a fresh row when absent;
then run every setter.  Note the decoders never set a `distance` column —
the events table has none and no setter reads `event.distance`. -/
def add_event (lib : ExtLib) (nside : Nat) (rows : List Row) (now : Nat)
    (e : Event) : List Row :=
  let rows :=
    if rows.any (fun r => r.id = e.index) then rows else create_event rows now e
  run_setters lib nside rows now e

/-- `Lo2tDb.get_event`: `SELECT * ... WHERE id = ?` with `fetchone()`. -/
def get_event (rows : List Row) (i : String) : Option Row :=
  rows.find? fun r => r.id = i

/-- The net per-row effect of the `add_event` setter cascade on the matching
row (proved equal to the cascade in `run_setters_sandwich`). -/
def apply_event_row (lib : ExtLib) (nside : Nat) (now : Nat) (e : Event)
    (r : Row) : Row :=
  set_has_remnant_row now e
    (set_has_neutron_star_row now e
      (set_false_alarm_rate_row now e
        (set_terrestrial_chance_row now e
          (set_skymap_row now e
            (set_healpix_index_row lib nside now e
              (set_position_error_row now e
                (set_position_row now e
                  (set_time_row now e
                    (set_alert_type_row now e r)))))))))

/-- Settings table model: `store_setting` builds its SQL as
`INSERT OR {'IGNORE' if overwrite else 'REPLACE'}` — REPLACE when
`overwrite` is False, IGNORE when it is True. -/
def insert_or_replace (tbl : List (String × String)) (k v : String) :
    List (String × String) :=
  tbl.filter (fun p => p.1 ≠ k) ++ [(k, v)]

/-- SQLite `INSERT OR IGNORE` on the settings table: keep the existing row
when the key is already present. -/
def insert_or_ignore (tbl : List (String × String)) (k v : String) :
    List (String × String) :=
  if tbl.any (fun p => p.1 = k) then tbl else tbl ++ [(k, v)]

/-- `Lo2tDb.store_setting(name, value, overwrite=False)`. -/
def store_setting (tbl : List (String × String)) (name value : String)
    (overwrite : Bool) : List (String × String) :=
  if overwrite then insert_or_ignore tbl name value
  else insert_or_replace tbl name value

/-- `SELECT value FROM settings WHERE name = ?` with `fetchone()`. -/
def get_setting (tbl : List (String × String)) (name : String) :
    Option String :=
  (tbl.find? fun p => p.1 = name).map fun p => p.2

/-- Column list of the events table `CREATE TABLE` in `Lo2tDb.__init__`. -/
def event_table_columns : List String :=
  ["id", "topic", "alert_type", "time_utc", "time_created", "time_modified",
   "ra", "ra_err", "ra_unit", "dec", "dec_err", "dec_unit", "healpix_index",
   "terrestrial_chance", "false_alarm_rate", "has_neutron_star",
   "has_remnant", "data"]

/-- Column list of the triggers table `CREATE TABLE` in `Lo2tDb.__init__`. -/
def trigger_table_columns : List String :=
  ["id", "event_id", "ra", "ra_unit", "dec", "dec_unit", "exposure_time",
   "calibrator_id", "calibrator_ra", "calibrator_ra_unit", "calibrator_dec",
   "calibrator_dec_unit", "calibrator_exposure_time"]

/-- `self.event_table = config["lo2t"]["db_table"]`. -/
def Lo2tDb_event_table (db_table : String) : String := db_table

/-- `self.trigger_table = config["lo2t"]["db_table"]` — the same config
entry as the event table. -/
def Lo2tDb_trigger_table (db_table : String) : String := db_table

/-- `CREATE TABLE IF NOT EXISTS`: extend the schema (a map from table name
to column list) only when the table is absent. -/
def create_table_if_not_exists (schema : List (String × List String))
    (t : String) (cols : List String) : List (String × List String) :=
  if schema.any (fun p => p.1 = t) then schema else schema ++ [(t, cols)]

/-- The three `CREATE TABLE IF NOT EXISTS` statements of `Lo2tDb.__init__`,
in source order: settings, events, triggers. -/
def init_tables (db_table : String) : List (String × List String) :=
  let s := create_table_if_not_exists [] "settings" ["name", "value"]
  let s := create_table_if_not_exists s (Lo2tDb_event_table db_table)
      event_table_columns
  create_table_if_not_exists s (Lo2tDb_trigger_table db_table)
      trigger_table_columns

/-- Schema lookup by table name. -/
def schema_lookup (schema : List (String × List String)) (t : String) :
    Option (List String) :=
  (schema.find? fun p => p.1 = t).map fun p => p.2

/-- Evaluating `datetime.datetime.now() * u.s` in `cleanup_old_events`:
`datetime.__mul__` returns `NotImplemented` and astropy's `Quantity`
constructor rejects a value of object dtype, so the expression raises
`TypeError` (either directly from `Quantity` or from the failed operator
dispatch). -/
def quantity_of_datetime : Except PyErr Rat := .error .typeError

/-- `Lo2tDb.cleanup_old_events(tolerance_time=60*u.minute)`: the first line
already raises (see `quantity_of_datetime`), so the `DELETE` is never
executed; were it reached, `execute` would additionally be handed a bare
float instead of a parameter sequence (a `ValueError`). -/
def cleanup_old_events (_rows : List Row) (tolerance_time : Rat) :
    Except PyErr (List Row) := do
  let now ← quantity_of_datetime
  let _cutoff := now - tolerance_time
  throw .valueError

/-- `Lo2tDb.is_near_in_position(event)`.  The argument is the event's
`healpix_index` attribute (base-class default `None`, never assigned by any
decoder in this repository).  With `None`, `ah.neighbours(None, ...)` raises
`TypeError` converting `None` to an integer array.  With an integer,
`ah.neighbours` returns a numpy array (of ring-order neighbours, since no
`order` is passed, although the stored indices are nested-order) and the next
line `neighbour_indices.append(...)` raises `AttributeError`: numpy arrays
have no `append` method.  Either way the `SELECT` is never reached. -/
def is_near_in_position (lib : ExtLib) (nside : Nat) (_rows : List Row)
    (event_healpix_index : Option Int) : Except PyErr (List Row) :=
  match event_healpix_index with
  | none => .error .typeError
  | some i =>
      let _neighbour_indices := lib.neighbours i nside
      .error .attributeError

/-- The `while` condition of `GcnNotices.listen`:
`(time.time() * u.s < time_start + timeout) or timeout < 0`, evaluated at a
poll cycle where `time.time()` reads `t`.  (A bare number passed as `timeout`
is multiplied by `u.s`, leaving its value unchanged.) -/
def listen_loop_check (time_start timeout t : Rat) : Bool :=
  decide (t < time_start + timeout) || decide (timeout < 0)

/-! The decoder registry (`decode/base.py`) and its startup population
(`decode/__init__.py`). -/

/-- The processor classes this repository registers at startup. -/
inductive ProcessorClass where
  | LigoProcessor
  | IcecubeProcessor
  | EinsteinprobeProcessor
  | SvomProcessor
  | SwiftProcessor
deriving DecidableEq, Repr

/-- The `provided_formats` class attribute of each processor. -/
def provided_formats : ProcessorClass → List String
  | .LigoProcessor => ["igwn.gwalert"]
  | .IcecubeProcessor => ["icecube"]
  | .EinsteinprobeProcessor => ["gcn.notices.einstein_probe.wxt.alert"]
  | .SvomProcessor => ["svom"]
  | .SwiftProcessor => ["swift"]

/-- Dictionary assignment `registered_gcn_processors[key] = cls`: overwrite
an existing entry, otherwise append. -/
def dict_assign (reg : List (String × ProcessorClass)) (k : String)
    (v : ProcessorClass) : List (String × ProcessorClass) :=
  if reg.any (fun p => p.1 = k) then
    reg.map (fun p => if p.1 = k then (k, v) else p)
  else reg ++ [(k, v)]

/-- `add_gcn_processor`: register a class under each of its formats. -/
def add_gcn_processor (reg : List (String × ProcessorClass))
    (cls : ProcessorClass) : List (String × ProcessorClass) :=
  (provided_formats cls).foldl (fun reg f => dict_assign reg f cls) reg

/-- The registry after the five `register()` calls in `decode/__init__.py`. -/
def registered_gcn_processors : List (String × ProcessorClass) :=
  add_gcn_processor
    (add_gcn_processor
      (add_gcn_processor
        (add_gcn_processor
          (add_gcn_processor [] .LigoProcessor)
          .IcecubeProcessor)
        .EinsteinprobeProcessor)
      .SvomProcessor)
    .SwiftProcessor

/-- `_get_processor_factory` on a string format key: raise
`ValueError("Unknown GCN notice format: ...")` when no entry exists. -/
def _get_processor_factory (message_format : String)
    (reg : List (String × ProcessorClass)) : Except PyErr ProcessorClass :=
  match (reg.find? fun p => p.1 = message_format).map (fun p => p.2) with
  | some cls => .ok cls
  | none => .error .valueError

/-! The gravitational-wave decoder (`decode/ligo.py`). -/

/-- The `record["event"]` sub-object of a gravitational-wave notice, as far
as `LigoProcessor.parse_notice` reads it.  Keys the payload may omit are
`Option`; a missing key raises `KeyError` at its access site. -/
structure LigoEventSection where
  group : String
  time : String
  skymap : Option String
  classification_terrestrial : Option Rat
  far : Option Rat
  properties_HasNS : Option Rat
  properties_HasRemnant : Option Rat
deriving DecidableEq, Repr

/-- The parsed gravitational-wave notice (the `json.loads` result), as far
as `parse_notice` reads it.  `event := none` models `"event": null`, which
retraction payloads carry. -/
structure LigoRecord where
  superevent_id : String
  alert_type : String
  event : Option LigoEventSection
deriving DecidableEq, Repr

/-- Dictionary access that raises `KeyError` when the key is absent. -/
def ofKey {α : Type} : Option α → Except PyErr α
  | some a => .ok a
  | none => .error .keyError

/-- Floor base-2 logarithm with explicit fuel (the first argument), so the
definition is structurally recursive; `log2_floor f n` equals
`Nat.log2 n` whenever `n ≤ f`. -/
def log2_floor : Nat → Nat → Nat
  | 0, _ => 0
  | fuel + 1, n => if 2 ≤ n then log2_floor fuel (n / 2) + 1 else 0

/-- `astropy_healpix.uniq_to_level_ipix`: split a hierarchical `UNIQ` index
into its resolution level and nested pixel index
(`level = log2(uniq // 4) // 2`, `ipix = uniq - 4**(level+1)`). -/
def uniq_to_level_ipix (uniq : Nat) : Nat × Nat :=
  let level := log2_floor uniq (uniq / 4) / 2
  (level, uniq - 4 ^ (level + 1))

/-- `astropy_healpix.level_to_nside`. -/
def level_to_nside (level : Nat) : Nat := 2 ^ level

/-- `skymap[np.argmax(skymap["PROBDENSITY"])]`: the first row attaining the
maximal probability density; `np.argmax` raises `ValueError` on an empty
table. -/
def argmax_row : List SkyRow → Except PyErr SkyRow
  | [] => .error .valueError
  | r :: rs =>
      .ok (rs.foldl (fun best x =>
        if best.probdensity < x.probdensity then x else best) r)

/-- The attribute state `LigoProcessor.__init__` establishes before
`parse_notice` runs, plus the two assignments `parse_notice` always makes
(`self.index`, `self.alert_type` from the record). -/
def ligo_defaults (topic : String) (r : LigoRecord) : Event :=
  { index := r.superevent_id, topic := topic,
    alert_type := some r.alert_type, time := none, position := none,
    position_err := none, distance := none, terrestrial_chance := none,
    false_alarm_rate := none, has_neutron_star := none, has_remnant := none,
    skymap := none }

/-- `LigoProcessor.parse_notice`, line by line: set `index` and
`alert_type`; return at once for a RETRACTION; return (only id and
alert_type set) when the group is not CBC; parse the event time; extract and
decode the base64 skymap (`record["event"]["skymap"]` raises `KeyError` when
the key is absent — `extract_skymap` catches only `ValueError` and
`TypeError`); pick the most probable pixel, convert its UNIQ index to
(level, ipix) and then to nested-order (ra, dec); read `DISTMEAN`/`DISTSTD`
from the table metadata, leaving `distance` empty if either key is missing;
finally read the classification scalars (a missing key raises `KeyError`). -/
def parse_notice (lib : ExtLib) (topic : String) (r : LigoRecord) :
    Except PyErr Event :=
  let e := ligo_defaults topic r
  if r.alert_type = "RETRACTION" then .ok e
  else
    match r.event with
    | none => .error .typeError
    | some ev =>
        if ev.group ≠ "CBC" then .ok e
        else
          match lib.strptime ev.time with
          | .error er => .error er
          | .ok t =>
            let e := { e with time := some t }
            match ev.skymap with
            | none => .error .keyError
            | some s =>
              match lib.b64decode s with
              | .error er => .error er
              | .ok bytes =>
                let e := { e with skymap := some bytes }
                match lib.table_read bytes with
                | .error er => .error er
                | .ok tbl =>
                  match argmax_row tbl.rows with
                  | .error er => .error er
                  | .ok row =>
                    let li := uniq_to_level_ipix row.uniq
                    let pos := lib.healpix_to_lonlat li.2 (level_to_nside li.1)
                    let e := { e with position := some pos }
                    let e :=
                      match tbl.distmean, tbl.diststd with
                      | some m, some sd => { e with distance := some (m, sd) }
                      | _, _ => e
                    match ofKey ev.classification_terrestrial with
                    | .error er => .error er
                    | .ok terr =>
                      match ofKey ev.far with
                      | .error er => .error er
                      | .ok farv =>
                        match ofKey ev.properties_HasNS with
                        | .error er => .error er
                        | .ok hns =>
                          match ofKey ev.properties_HasRemnant with
                          | .error er => .error er
                          | .ok hrm =>
                            .ok { e with terrestrial_chance := some terr,
                                         false_alarm_rate := some farv,
                                         has_neutron_star := some hns,
                                         has_remnant := some hrm }

/-! A concrete model of Python's `json` module as the receiver uses it
(`receiver.py`: `json.loads(message.value())` and
`json.dump(..., indent=4)`).  The modelled grammar is the JSON the GCN
payloads are written in: objects with string keys, arrays, strings, integer
numbers, booleans and null, arbitrarily nested.  Two wire features stay
outside the model — string escape sequences and floating-point numbers
(whose decode/redump behaviour would need IEEE float semantics) — and an
input using them is reported as a decode error here even though real
`json.loads` accepts it; the theorems stay inside the model by
hypothesising on this parser's result. -/

/-- A JSON document of the modelled grammar. -/
inductive Json where
  | null
  | boolean (b : Bool)
  | num (n : Int)
  | str (s : String)
  | arr (elems : List Json)
  | obj (fields : List (String × Json))
deriving Repr

/-- Whitespace skipping for the JSON reader. -/
def skip_ws : List Char → List Char
  | c :: cs => if c = ' ' ∨ c = '\n' ∨ c = '\t' ∨ c = '\r' then skip_ws cs
               else c :: cs
  | [] => []

/-- Read a JSON string body up to the closing quote (escapes are outside the
modelled grammar). -/
def read_string_body : List Char → Option (String × List Char)
  | [] => none
  | c :: cs =>
      if c = '"' then some ("", cs)
      else if c = '\\' then none
      else (read_string_body cs).map fun p => (String.mk (c :: p.1.data), p.2)

/-- Read a run of decimal digits. -/
def read_digits : List Char → (List Char × List Char)
  | [] => ([], [])
  | c :: cs =>
      if c.isDigit then
        let p := read_digits cs
        (c :: p.1, p.2)
      else ([], c :: cs)

/-- The numeric value of a run of decimal digits. -/
def digits_to_nat (ds : List Char) : Nat :=
  ds.foldl (fun acc c => 10 * acc + (c.toNat - '0'.toNat)) 0

mutual

/-- Parse one JSON value of the modelled grammar; the fuel (first argument)
only makes the recursion structural, and the entry point `json_loads`
passes more than any input can consume. -/
def parse_value : Nat → List Char → Option (Json × List Char)
  | 0, _ => none
  | fuel + 1, cs =>
      match skip_ws cs with
      | '"' :: rest => (read_string_body rest).map fun p => (.str p.1, p.2)
      | 'n' :: 'u' :: 'l' :: 'l' :: rest => some (.null, rest)
      | 't' :: 'r' :: 'u' :: 'e' :: rest => some (.boolean true, rest)
      | 'f' :: 'a' :: 'l' :: 's' :: 'e' :: rest => some (.boolean false, rest)
      | '-' :: rest =>
          (match read_digits rest with
           | ([], _) => none
           | (ds, rem) => some (.num (-(digits_to_nat ds : Int)), rem))
      | '\x7b' :: rest =>
          (match skip_ws rest with
           | '\x7d' :: rest2 => some (.obj [], rest2)
           | rest2 => (parse_fields fuel rest2).map fun p => (.obj p.1, p.2))
      | '[' :: rest =>
          (match skip_ws rest with
           | ']' :: rest2 => some (.arr [], rest2)
           | rest2 => (parse_items fuel rest2).map fun p => (.arr p.1, p.2))
      | other =>
          match read_digits other with
          | ([], _) => none
          | (ds, rem) => some (.num (digits_to_nat ds), rem)

/-- Parse the members of a non-empty JSON object, after the opening brace
and its following whitespace. -/
def parse_fields : Nat → List Char → Option (List (String × Json) × List Char)
  | 0, _ => none
  | fuel + 1, cs =>
      match skip_ws cs with
      | '"' :: rest => do
          let (k, rest) ← read_string_body rest
          match skip_ws rest with
          | ':' :: rest => do
              let (v, rest) ← parse_value fuel rest
              match skip_ws rest with
              | ',' :: rest => do
                  let (fs, rest) ← parse_fields fuel rest
                  pure ((k, v) :: fs, rest)
              | '\x7d' :: rest => pure ([(k, v)], rest)
              | _ => none
          | _ => none
      | _ => none

/-- Parse the elements of a non-empty JSON array, after the opening bracket
and its following whitespace. -/
def parse_items : Nat → List Char → Option (List Json × List Char)
  | 0, _ => none
  | fuel + 1, cs => do
      let (v, rest) ← parse_value fuel cs
      match skip_ws rest with
      | ',' :: rest => do
          let (xs, rest) ← parse_items fuel rest
          pure (v :: xs, rest)
      | ']' :: rest => pure ([v], rest)
      | _ => none

end

/-- `json.loads`: one JSON document of the modelled grammar with nothing
but whitespace after it. -/
def json_loads (s : String) : Except PyErr Json :=
  match parse_value (2 * s.length + 8) s.data with
  | some (v, rem) =>
      if (skip_ws rem).isEmpty then .ok v else .error .jsonDecodeError
  | none => .error .jsonDecodeError

/-- Four-space indentation at the given nesting depth, as `json.dump`'s
`indent=4` produces. -/
def indent4 (lvl : Nat) : String := String.mk (List.replicate (4 * lvl) ' ')

mutual

/-- `json.dump(value, f, indent=4)`: a non-empty container opens its
bracket, puts each member on its own line one level deeper, joins members
with `",\n"`, and closes its bracket on a line of its own at the current
level; empty containers stay on one line; the key-value separator is
`": "`. -/
def dump_value : Json → Nat → String
  | .null, _ => "null"
  | .boolean true, _ => "true"
  | .boolean false, _ => "false"
  | .num n, _ => toString n
  | .str s, _ => "\"" ++ s ++ "\""
  | .obj [], _ => "\x7b\x7d"
  | .obj fs, lvl => "\x7b\n" ++ dump_fields fs (lvl + 1) ++ "\n" ++
      indent4 lvl ++ "\x7d"
  | .arr [], _ => "[]"
  | .arr xs, lvl => "[\n" ++ dump_items xs (lvl + 1) ++ "\n" ++
      indent4 lvl ++ "]"

/-- Render the members of a non-empty object, one per line. -/
def dump_fields : List (String × Json) → Nat → String
  | [], _ => ""
  | [(k, v)], lvl => indent4 lvl ++ "\"" ++ k ++ "\": " ++ dump_value v lvl
  | (k, v) :: rest, lvl =>
      indent4 lvl ++ "\"" ++ k ++ "\": " ++ dump_value v lvl ++ ",\n" ++
        dump_fields rest lvl

/-- Render the elements of a non-empty array, one per line. -/
def dump_items : List Json → Nat → String
  | [], _ => ""
  | [x], lvl => indent4 lvl ++ dump_value x lvl
  | x :: rest, lvl =>
      indent4 lvl ++ dump_value x lvl ++ ",\n" ++ dump_items rest lvl

end

/-- The string `json.dump(v, f, indent=4)` writes. -/
def json_dumps_indent4 (j : Json) : String := dump_value j 0

/-! The ingestion loop (`receiver.py`). -/

/-- A transport message: `message.topic()` and `message.value()` (the raw
payload, held as a string of its bytes). -/
structure Message where
  topic : String
  value : String
deriving DecidableEq, Repr

/-- The per-topic dictionaries `GcnNotices.load_config` fills: one entry per
subscribed topic (`notice_counter` starts at 0; `notice_limit` and
`notice_type` come from the topic's configuration section). -/
structure GcnState where
  notice_counter : List (String × Int)
  notice_limit : List (String × Int)
  notice_type : List (String × String)
deriving DecidableEq, Repr

/-- Python dictionary lookup (`d[k]` yields `none` for a missing key; the
call sites turn that into `KeyError` or a caught default as the source
does). -/
def dict_lookup {α : Type} (d : List (String × α)) (k : String) : Option α :=
  (d.find? fun p => p.1 = k).map fun p => p.2

/-- Update the value stored under an existing key. -/
def dict_set {α : Type} (d : List (String × α)) (k : String) (v : α) :
    List (String × α) :=
  d.map fun p => if p.1 = k then (k, v) else p

/-- The file a `save_message` call writes: its name and its exact contents. -/
structure SavedFile where
  filename : String
  contents : String
deriving DecidableEq, Repr

/-- `GcnNotices.extract_time`: `json.loads` the payload and
`dateutil`-parse its `alert_datetime` entry.  A missing key is `KeyError`
(the only kind the caller catches); a payload that does not decode
propagates the decode error; a non-object payload or a non-string entry
makes the subscripting or `dateutil.parser.parse` raise `TypeError`; and a
string `dateutil` cannot parse raises `ParserError` (a `ValueError`), which
also escapes `parse_message` uncaught. -/
def extract_time (lib : ExtLib) (value : String) : Except PyErr String := do
  let data ← json_loads value
  match data with
  | .obj fs =>
      match dict_lookup fs "alert_datetime" with
      | some (.str s) => lib.dateparse s
      | some _ => .error .typeError
      | none => .error .keyError
  | _ => .error .typeError

/-- `GcnNotices.save_message(message, notice_time)`.  `notice_time = none`
models the variable never having been assigned in `parse_message` (topic
type neither `"json"` nor `"voevent"`), which raises a `NameError` when the
call is evaluated.  The topic's `notice_type` entry is looked up again here,
and this time a missing key is an uncaught `KeyError`.  A `"json"` payload
is re-parsed and pretty-printed (`json.dump(json.loads(...), indent=4)`); a
`"voevent"` payload is written verbatim in binary; any other type opens no
file at all (`.ok none`). -/
def save_message (st : GcnState) (m : Message) (notice_time : Option String) :
    Except PyErr (Option SavedFile) :=
  match notice_time with
  | none => .error .nameError
  | some nt =>
      match dict_lookup st.notice_type m.topic with
      | none => .error .keyError
      | some ft =>
          let filename := "notices/" ++ m.topic ++ "_notice_" ++ nt ++
            (if ft = "json" then ".json"
             else if ft = "voevent" then ".voevent" else "")
          if ft = "json" then do
            let v ← json_loads m.value
            .ok (some ⟨filename, json_dumps_indent4 v⟩)
          else if ft = "voevent" then .ok (some ⟨filename, m.value⟩)
          else .ok none

/-- `GcnNotices.parse_message`, with the current wall-clock string `now`
standing for `datetime.datetime.now()`.  The topic's counter is incremented
first (a topic absent from the counter dictionary raises `KeyError` before
any increment); when the incremented counter is under the topic's limit (or
the limit is negative) the notice time is computed — `extract_time` for
`"json"` topics, with only `KeyError` caught (falling back to `now`) — and
the message is saved.  The returned state carries the counter update even
when an exception propagates, as the Python object does. -/
def parse_message (lib : ExtLib) (st : GcnState) (m : Message) (now : String) :
    GcnState × Except PyErr (Option SavedFile) :=
  match dict_lookup st.notice_counter m.topic with
  | none => (st, .error .keyError)
  | some c =>
      let st := { st with
        notice_counter := dict_set st.notice_counter m.topic (c + 1) }
      match dict_lookup st.notice_limit m.topic with
      | none => (st, .error .keyError)
      | some lim =>
          if lim > c + 1 ∨ lim < 0 then
            let nt : Except PyErr (Option String) :=
              match dict_lookup st.notice_type m.topic with
              | some "json" =>
                  match extract_time lib m.value with
                  | .ok t => .ok (some t)
                  | .error .keyError => .ok (some now)
                  | .error e => .error e
              | some "voevent" => .ok (some now)
              | some _ => .ok none
              | none => .ok (some now)
            match nt with
            | .error e => (st, .error e)
            | .ok nt => (st, save_message st m nt)
          else (st, .ok none)

/-- A concrete instantiation of the external-library interface, used to
evaluate the store and decoder on closed inputs. -/
def dummy_lib : ExtLib :=
  { lonlat_to_healpix := fun a d n => a.value.floor + d.value.floor + n,
    healpix_to_lonlat := fun i n => (⟨i, "rad"⟩, ⟨n, "rad"⟩),
    neighbours := fun _ _ => [],
    b64decode := fun s => .ok (s.data.map Char.toNat),
    table_read := fun _ => .error .valueError,
    strptime := fun s => .ok s,
    dateparse := fun s => .ok s }

/-- The predicate "the row's mutable fields equal the event's values":
each overwritable column of the events table compared with the
corresponding field of the normalized event (`spatial index` being the
bucket of the event's position). -/
def event_row_fields_match (lib : ExtLib) (nside : Nat) (r : Row) (e : Event) :
    Prop :=
  r.alert_type = e.alert_type ∧
  r.time_utc = e.time ∧
  r.ra = e.position.map (fun p => p.1.value) ∧
  r.ra_unit = e.position.map (fun p => p.1.unit) ∧
  r.dec = e.position.map (fun p => p.2.value) ∧
  r.dec_unit = e.position.map (fun p => p.2.unit) ∧
  r.ra_err = e.position_err.map (fun p => p.1) ∧
  r.dec_err = e.position_err.map (fun p => p.2) ∧
  r.healpix_index = e.position.map (fun p => lib.lonlat_to_healpix p.1 p.2 nside) ∧
  r.data = e.skymap ∧
  r.terrestrial_chance = e.terrestrial_chance ∧
  r.false_alarm_rate = e.false_alarm_rate ∧
  r.has_neutron_star = e.has_neutron_star ∧
  r.has_remnant = e.has_remnant

instance (lib : ExtLib) (nside : Nat) (r : Row) (e : Event) :
    Decidable (event_row_fields_match lib nside r e) := by
  unfold event_row_fields_match
  infer_instance

/-! Infrastructure lemmas about `updateRow` and the `add_event` cascade. -/

theorem any_id_eq_false {rows : List Row} {i : String}
    (h : ∀ r ∈ rows, r.id ≠ i) : rows.any (fun r => r.id = i) = false := by
  rw [List.any_eq_false]
  intro r hr
  simpa using h r hr

theorem updateRow_clean {rows : List Row} {i : String} {f : Row → Row}
    (h : ∀ r ∈ rows, r.id ≠ i) : updateRow rows i f = rows := by
  unfold updateRow
  conv_rhs => rw [← List.map_id rows]
  apply List.map_congr_left
  intro r hr
  simp [h r hr]

theorem updateRow_append {a b : List Row} {i : String} {f : Row → Row} :
    updateRow (a ++ b) i f = updateRow a i f ++ updateRow b i f := by
  simp [updateRow]

theorem updateRow_cons_match {x : Row} {b : List Row} {i : String}
    {f : Row → Row} (hx : x.id = i) :
    updateRow (x :: b) i f = f x :: updateRow b i f := by
  simp [updateRow, hx]

theorem updateRow_sandwich {rows₀ rows₁ : List Row} {x : Row} {i : String}
    {f : Row → Row} (h₀ : ∀ r ∈ rows₀, r.id ≠ i)
    (h₁ : ∀ r ∈ rows₁, r.id ≠ i) (hx : x.id = i) :
    updateRow (rows₀ ++ x :: rows₁) i f = rows₀ ++ f x :: rows₁ := by
  rw [updateRow_append, updateRow_clean h₀, updateRow_cons_match hx,
    updateRow_clean h₁]

theorem set_alert_type_row_id (now : Nat) (e : Event) (r : Row) :
    (set_alert_type_row now e r).id = r.id := rfl

theorem set_time_row_id (now : Nat) (e : Event) (r : Row) :
    (set_time_row now e r).id = r.id := rfl

theorem set_position_row_id (now : Nat) (e : Event) (r : Row) :
    (set_position_row now e r).id = r.id := by
  unfold set_position_row
  cases e.position with
  | none => rfl
  | some p => cases p; rfl

theorem set_position_error_row_id (now : Nat) (e : Event) (r : Row) :
    (set_position_error_row now e r).id = r.id := rfl

theorem set_healpix_index_row_id (lib : ExtLib) (nside now : Nat) (e : Event)
    (r : Row) : (set_healpix_index_row lib nside now e r).id = r.id := by
  unfold set_healpix_index_row
  cases e.position with
  | none => rfl
  | some p => cases p; rfl

theorem set_skymap_row_id (now : Nat) (e : Event) (r : Row) :
    (set_skymap_row now e r).id = r.id := rfl

theorem set_terrestrial_chance_row_id (now : Nat) (e : Event) (r : Row) :
    (set_terrestrial_chance_row now e r).id = r.id := rfl

theorem set_false_alarm_rate_row_id (now : Nat) (e : Event) (r : Row) :
    (set_false_alarm_rate_row now e r).id = r.id := rfl

theorem set_has_neutron_star_row_id (now : Nat) (e : Event) (r : Row) :
    (set_has_neutron_star_row now e r).id = r.id := rfl

theorem set_has_remnant_row_id (now : Nat) (e : Event) (r : Row) :
    (set_has_remnant_row now e r).id = r.id := rfl

theorem apply_event_row_id (lib : ExtLib) (nside now : Nat) (e : Event)
    (r : Row) : (apply_event_row lib nside now e r).id = r.id := by
  unfold apply_event_row
  rw [set_has_remnant_row_id, set_has_neutron_star_row_id,
    set_false_alarm_rate_row_id, set_terrestrial_chance_row_id,
    set_skymap_row_id, set_healpix_index_row_id, set_position_error_row_id,
    set_position_row_id, set_time_row_id, set_alert_type_row_id]

theorem run_setters_sandwich {lib : ExtLib} {nside : Nat}
    {rows₀ rows₁ : List Row} {x : Row} {now : Nat} {e : Event}
    (h₀ : ∀ r ∈ rows₀, r.id ≠ e.index) (h₁ : ∀ r ∈ rows₁, r.id ≠ e.index)
    (hx : x.id = e.index) :
    run_setters lib nside (rows₀ ++ x :: rows₁) now e =
      rows₀ ++ apply_event_row lib nside now e x :: rows₁ := by
  unfold run_setters
  dsimp only
  rw [updateRow_sandwich h₀ h₁ hx]
  rw [updateRow_sandwich h₀ h₁ (by rw [set_alert_type_row_id]; exact hx)]
  rw [updateRow_sandwich h₀ h₁
    (by rw [set_time_row_id, set_alert_type_row_id]; exact hx)]
  rw [updateRow_sandwich h₀ h₁
    (by rw [set_position_row_id, set_time_row_id, set_alert_type_row_id];
        exact hx)]
  rw [updateRow_sandwich h₀ h₁
    (by rw [set_position_error_row_id, set_position_row_id, set_time_row_id,
          set_alert_type_row_id]; exact hx)]
  rw [updateRow_sandwich h₀ h₁
    (by rw [set_healpix_index_row_id, set_position_error_row_id,
          set_position_row_id, set_time_row_id, set_alert_type_row_id];
        exact hx)]
  rw [updateRow_sandwich h₀ h₁
    (by rw [set_skymap_row_id, set_healpix_index_row_id,
          set_position_error_row_id, set_position_row_id, set_time_row_id,
          set_alert_type_row_id]; exact hx)]
  rw [updateRow_sandwich h₀ h₁
    (by rw [set_terrestrial_chance_row_id, set_skymap_row_id,
          set_healpix_index_row_id, set_position_error_row_id,
          set_position_row_id, set_time_row_id, set_alert_type_row_id];
        exact hx)]
  rw [updateRow_sandwich h₀ h₁
    (by rw [set_false_alarm_rate_row_id, set_terrestrial_chance_row_id,
          set_skymap_row_id, set_healpix_index_row_id,
          set_position_error_row_id, set_position_row_id, set_time_row_id,
          set_alert_type_row_id]; exact hx)]
  rw [updateRow_sandwich h₀ h₁
    (by rw [set_has_neutron_star_row_id, set_false_alarm_rate_row_id,
          set_terrestrial_chance_row_id, set_skymap_row_id,
          set_healpix_index_row_id, set_position_error_row_id,
          set_position_row_id, set_time_row_id, set_alert_type_row_id];
        exact hx)]
  rfl

theorem new_event_row_id (now : Nat) (e : Event) :
    (new_event_row now e).id = e.index := rfl

theorem add_event_fresh {lib : ExtLib} {nside : Nat} {rows : List Row}
    {now : Nat} {e : Event} (h : ∀ r ∈ rows, r.id ≠ e.index) :
    add_event lib nside rows now e =
      rows ++ [apply_event_row lib nside now e (new_event_row now e)] := by
  unfold add_event create_event
  rw [any_id_eq_false h]
  simp only [Bool.false_eq_true, if_false]
  have : rows ++ [new_event_row now e] = rows ++ new_event_row now e :: [] := rfl
  rw [this, run_setters_sandwich h (by intro r hr; cases hr)
    (new_event_row_id now e)]

theorem add_event_existing {lib : ExtLib} {nside : Nat}
    {rows₀ rows₁ : List Row} {x : Row} {now : Nat} {e : Event}
    (h₀ : ∀ r ∈ rows₀, r.id ≠ e.index) (h₁ : ∀ r ∈ rows₁, r.id ≠ e.index)
    (hx : x.id = e.index) :
    add_event lib nside (rows₀ ++ x :: rows₁) now e =
      rows₀ ++ apply_event_row lib nside now e x :: rows₁ := by
  unfold add_event
  have hany : (rows₀ ++ x :: rows₁).any (fun r => r.id = e.index) = true := by
    rw [List.any_eq_true]
    exact ⟨x, by simp, by simp [hx]⟩
  rw [hany]
  simp only [if_true]
  exact run_setters_sandwich h₀ h₁ hx

theorem get_event_sandwich {rows₀ rows₁ : List Row} {x : Row} {i : String}
    (h₀ : ∀ r ∈ rows₀, r.id ≠ i) (hx : x.id = i) :
    get_event (rows₀ ++ x :: rows₁) i = some x := by
  unfold get_event
  induction rows₀ with
  | nil =>
      simp only [List.nil_append]
      exact List.find?_cons_of_pos _ (by simpa using hx)
  | cons hd tl ih =>
      have hhd : hd.id ≠ i := h₀ hd (by simp)
      simp only [List.cons_append]
      rw [List.find?_cons_of_neg _ (by simpa using hhd)]
      exact ih fun r hr => h₀ r (by simp [hr])

theorem count_id_sandwich {rows₀ rows₁ : List Row} {x : Row} {i : String}
    (h₀ : ∀ r ∈ rows₀, r.id ≠ i) (h₁ : ∀ r ∈ rows₁, r.id ≠ i)
    (hx : x.id = i) :
    ((rows₀ ++ x :: rows₁).filter (fun r => r.id = i)).length = 1 := by
  rw [List.filter_append, List.filter_cons]
  have e₀ : rows₀.filter (fun r => decide (r.id = i)) = [] :=
    List.filter_eq_nil_iff.mpr fun r hr => by simpa using h₀ r hr
  have e₁ : rows₁.filter (fun r => decide (r.id = i)) = [] :=
    List.filter_eq_nil_iff.mpr fun r hr => by simpa using h₁ r hr
  rw [e₀, e₁, if_pos (by simpa using hx)]
  rfl

theorem apply_event_row_fields (lib : ExtLib) (nside now : Nat) (e : Event)
    (r : Row) :
    (apply_event_row lib nside now e r).topic = r.topic ∧
    (apply_event_row lib nside now e r).time_created = r.time_created ∧
    (apply_event_row lib nside now e r).alert_type = e.alert_type ∧
    (apply_event_row lib nside now e r).time_utc = e.time ∧
    (apply_event_row lib nside now e r).time_modified = some now ∧
    (apply_event_row lib nside now e r).ra_err
      = e.position_err.map (fun p => p.1) ∧
    (apply_event_row lib nside now e r).dec_err
      = e.position_err.map (fun p => p.2) ∧
    (apply_event_row lib nside now e r).data = e.skymap ∧
    (apply_event_row lib nside now e r).terrestrial_chance
      = e.terrestrial_chance ∧
    (apply_event_row lib nside now e r).false_alarm_rate
      = e.false_alarm_rate ∧
    (apply_event_row lib nside now e r).has_neutron_star
      = e.has_neutron_star ∧
    (apply_event_row lib nside now e r).has_remnant = e.has_remnant ∧
    (∀ a d, e.position = some (a, d) →
      (apply_event_row lib nside now e r).ra = some a.value ∧
      (apply_event_row lib nside now e r).ra_unit = some a.unit ∧
      (apply_event_row lib nside now e r).dec = some d.value ∧
      (apply_event_row lib nside now e r).dec_unit = some d.unit ∧
      (apply_event_row lib nside now e r).healpix_index
        = some (lib.lonlat_to_healpix a d nside)) ∧
    (e.position = none →
      (apply_event_row lib nside now e r).ra = r.ra ∧
      (apply_event_row lib nside now e r).ra_unit = r.ra_unit ∧
      (apply_event_row lib nside now e r).dec = r.dec ∧
      (apply_event_row lib nside now e r).dec_unit = r.dec_unit ∧
      (apply_event_row lib nside now e r).healpix_index = r.healpix_index) := by
  cases hp : e.position with
  | none =>
      simp [apply_event_row, set_has_remnant_row, set_has_neutron_star_row,
        set_false_alarm_rate_row, set_terrestrial_chance_row, set_skymap_row,
        set_healpix_index_row, set_position_error_row, set_position_row,
        set_time_row, set_alert_type_row, hp]
  | some p =>
      obtain ⟨a, d⟩ := p
      simp [apply_event_row, set_has_remnant_row, set_has_neutron_star_row,
        set_false_alarm_rate_row, set_terrestrial_chance_row, set_skymap_row,
        set_healpix_index_row, set_position_error_row, set_position_row,
        set_time_row, set_alert_type_row, hp]

/-! Claim theorems. -/

/-- C4.  The claim states that `cleanup_old_events` deletes exactly the
stored events older than the retention window.  The code instead raises
`TypeError` on its very first line (`datetime.datetime.now() * u.s`, see
`quantity_of_datetime`) for every store and every retention value, before
any `DELETE` is issued, so no event is ever deleted and no store state is
ever returned. -/
theorem cleanup_old_events_always_raises :
    ∀ (rows : List Row) (tolerance_time : Rat),
      cleanup_old_events rows tolerance_time = .error .typeError := by
  intro rows tolerance_time
  rfl

/-- C5.  The claim states that `is_near_in_position` returns exactly the
stored events in the 3x3 bucket neighbourhood of the event's spatial index,
and the empty list when the event has no position.  The code instead raises
on every call: `AttributeError` when the event carries a spatial index (the
numpy array returned by `ah.neighbours` has no `append` method) and
`TypeError` when it does not (`ah.neighbours(None, ...)`); it never returns
a result list, empty or otherwise. -/
theorem is_near_in_position_always_raises :
    ∀ (lib : ExtLib) (nside : Nat) (rows : List Row) (hpx : Option Int),
      is_near_in_position lib nside rows hpx =
        .error (match hpx with
                | some _ => PyErr.attributeError
                | none => PyErr.typeError) := by
  intro lib nside rows hpx
  cases hpx <;> rfl

/-- C8 (amended).  A strictly negative timeout makes the `listen` loop run
indefinitely: its `while` condition is true at every poll cycle, whatever
the clock reads, so only an external stop ends the loop.  A timeout of zero
does not: as soon as the clock reading is at or past the start time — in
particular at the very first check — the condition is false and the loop
terminates. -/
theorem listen_timeout_semantics :
    ∀ time_start timeout t : Rat,
      (timeout < 0 → listen_loop_check time_start timeout t = true) ∧
      (0 ≤ timeout → time_start + timeout ≤ t →
        listen_loop_check time_start timeout t = false) := by
  intro time_start timeout t
  constructor
  · intro h
    simp [listen_loop_check, h]
  · intro h0 ht
    simp only [listen_loop_check, Bool.or_eq_false_iff, decide_eq_false_iff_not]
    constructor
    · linarith
    · linarith

/-- Witness for C8: with a negative timeout the check passes at an
arbitrarily late clock reading, while with timeout zero it already fails at
the start time itself. -/
theorem listen_timeout_semantics_witness :
    listen_loop_check 0 (-1) 1000000 = true ∧
    listen_loop_check 5 0 5 = false :=
  ⟨(listen_timeout_semantics 0 (-1) 1000000).1 (by norm_num),
   (listen_timeout_semantics 5 0 5).2 (by norm_num) (by norm_num)⟩

/-- Counterexample for C8 as stated: the claim says every non-positive
timeout makes the loop run indefinitely, but with `timeout = 0` the run-
timeout check already terminates the loop at the first cycle (`time_start =
0`, clock reading `0`). -/
theorem listen_timeout_zero_terminates : listen_loop_check 0 0 0 = false := by
  norm_num [listen_loop_check]

/-- C10.  `store_setting` builds `INSERT OR REPLACE` when called with the
default `overwrite=False` — so a second store of the same name replaces the
value — and `INSERT OR IGNORE` when called with `overwrite=True` — so the
first stored value survives.  The flag's effect is the reverse of its
name. -/
theorem store_setting_overwrite_reversed :
    ∀ (tbl : List (String × String)) (name v1 v2 : String),
      store_setting tbl name v1 false = insert_or_replace tbl name v1 ∧
      store_setting tbl name v1 true = insert_or_ignore tbl name v1 ∧
      get_setting (store_setting (store_setting tbl name v1 false)
        name v2 false) name = some v2 ∧
      get_setting (store_setting (store_setting tbl name v1 false)
        name v2 true) name = some v1 := by
  intro tbl name v1 v2
  have hrep : ∀ (t : List (String × String)) (v : String),
      get_setting (insert_or_replace t name v) name = some v := by
    intro t v
    unfold get_setting insert_or_replace
    induction t with
    | nil => simp [List.find?]
    | cons hd tl ih =>
        by_cases h : hd.1 = name
        · simpa [List.filter_cons, h] using ih
        · simpa [List.filter_cons, h, List.find?_cons_of_neg, h] using ih
  have hmem : (store_setting tbl name v1 false).any
      (fun p => p.1 = name) = true := by
    unfold store_setting insert_or_replace
    simp
  refine ⟨rfl, rfl, ?_, ?_⟩
  · exact hrep _ v2
  · show get_setting (insert_or_ignore (store_setting tbl name v1 false)
      name v2) name = some v1
    unfold insert_or_ignore
    rw [hmem]
    simp only [if_true]
    exact hrep tbl v1

/-- C9 (amended).  `Lo2tDb.__init__` assigns the same configured name to
`event_table` and `trigger_table`, so for any table name other than the
reserved `"settings"` the events `CREATE TABLE` runs first, the trigger
`CREATE TABLE IF NOT EXISTS` is a no-op on the same name, the shared table
carries the event schema, and no table of the schema ever carries the
trigger-specific columns.  (When the configured name is exactly
`"settings"`, even the events table creation is a no-op — see the
counterexample.) -/
theorem shared_table_single_schema :
    ∀ db_table : String,
      Lo2tDb_event_table db_table = Lo2tDb_trigger_table db_table ∧
      (∀ t cols, schema_lookup (init_tables db_table) t = some cols →
        cols = ["name", "value"] ∨ cols = event_table_columns) ∧
      (db_table ≠ "settings" →
        schema_lookup (init_tables db_table) db_table
          = some event_table_columns) := by
  intro db_table
  have hshape : init_tables db_table =
      if db_table = "settings" then [("settings", ["name", "value"])]
      else [("settings", ["name", "value"]),
            (db_table, event_table_columns)] := by
    unfold init_tables create_table_if_not_exists Lo2tDb_event_table
      Lo2tDb_trigger_table
    by_cases h : db_table = "settings"
    · subst h
      simp
    · have h' : ¬ ("settings" = db_table) := fun hc => h hc.symm
      simp [h, h']
  refine ⟨rfl, ?_, ?_⟩
  · intro t cols hc
    rw [hshape] at hc
    by_cases h : db_table = "settings"
    · rw [if_pos h] at hc
      unfold schema_lookup at hc
      by_cases hts : "settings" = t
      · simp [List.find?, hts] at hc
        left
        exact hc.symm
      · simp [List.find?_cons_of_neg, hts] at hc
    · rw [if_neg h] at hc
      unfold schema_lookup at hc
      by_cases hts : "settings" = t
      · rw [List.find?_cons_of_pos _ (by simpa using hts)] at hc
        simp at hc
        left
        exact hc.symm
      · rw [List.find?_cons_of_neg _ (by simpa using hts)] at hc
        by_cases htd : db_table = t
        · rw [List.find?_cons_of_pos _ (by simpa using htd)] at hc
          simp at hc
          right
          exact hc.symm
        · rw [List.find?_cons_of_neg _ (by simpa using htd)] at hc
          simp [List.find?] at hc
  · intro h
    rw [hshape, if_neg h]
    unfold schema_lookup
    rw [List.find?_cons_of_neg _ (by simpa using fun hc : "settings" = db_table => h hc.symm)]
    rw [List.find?_cons_of_pos _ (by simp)]
    rfl

/-- Witness for C9: with the table name `"events"`, both table attributes
name the same table, and that table carries the event schema. -/
theorem shared_table_single_schema_witness :
    Lo2tDb_event_table "events" = Lo2tDb_trigger_table "events" ∧
    schema_lookup (init_tables "events") "events"
      = some event_table_columns ∧
    ("event_id" ∈ event_table_columns → False) ∧
    ("calibrator_id" ∈ event_table_columns → False) :=
  ⟨(shared_table_single_schema "events").1,
   (shared_table_single_schema "events").2.2 (by decide),
   by decide, by decide⟩

/-- Counterexample for C9 as stated: the claim asserts that for every
configuration the shared table carries the event schema, but with
`db_table = "settings"` even the events `CREATE TABLE IF NOT EXISTS` is a
no-op, and the single table both names denote is the settings table, not an
event-schema table. -/
theorem shared_table_settings_name_collision :
    Lo2tDb_event_table "settings" = Lo2tDb_trigger_table "settings" ∧
    schema_lookup (init_tables "settings") "settings"
      = some ["name", "value"] ∧
    ["name", "value"] ≠ event_table_columns := by
  refine ⟨rfl, ?_, by decide⟩
  rfl

/-- C3 (amended).  `_get_processor_factory` raises its "Unknown GCN notice
format" `ValueError` for every string format key without a registry entry;
but `parse_message` never consults the registry, so the per-topic counter
moves independently of decoder registration: it stays untouched exactly
when the topic is absent from the counter dictionary built from the
configured subscriptions — the increment itself then raises `KeyError`
before writing — while for a subscribed topic the counter is incremented
whether or not a decoder exists (see the counterexample). -/
theorem unknown_format_and_counter :
    (∀ fmt : String,
      (registered_gcn_processors.find? fun p => p.1 = fmt) = none →
      _get_processor_factory fmt registered_gcn_processors
        = .error .valueError) ∧
    (∀ (lib : ExtLib) (st : GcnState) (m : Message) (now : String),
      dict_lookup st.notice_counter m.topic = none →
      parse_message lib st m now = (st, .error .keyError)) := by
  constructor
  · intro fmt h
    unfold _get_processor_factory
    rw [h]
    rfl
  · intro lib st m now h
    unfold parse_message
    rw [h]

/-- Witness for C3: the unregistered topic of the claim's scenario is
refused by the registry, and a message on a topic absent from the counter
dictionary leaves the counters untouched (the lookup raises `KeyError`
before the increment). -/
theorem unknown_format_and_counter_witness :
    _get_processor_factory "gcn.notices.unregistered"
      registered_gcn_processors = .error .valueError ∧
    parse_message dummy_lib ⟨[("svom", 0)], [("svom", 5)], [("svom", "json")]⟩
      ⟨"gcn.notices.unregistered", "payload"⟩ "NOW"
      = (⟨[("svom", 0)], [("svom", 5)], [("svom", "json")]⟩,
         .error .keyError) :=
  ⟨unknown_format_and_counter.1 "gcn.notices.unregistered" (by decide),
   unknown_format_and_counter.2 dummy_lib
     ⟨[("svom", 0)], [("svom", 5)], [("svom", "json")]⟩
     ⟨"gcn.notices.unregistered", "payload"⟩ "NOW" (by decide)⟩

/-- The ingestion state of the C3 counterexample: the topic
`"gcn.notices.unregistered"` is subscribed (so `load_config` gave it a
counter, a limit and a type) but no decoder provides that format. -/
def c3_state : GcnState :=
  ⟨[("gcn.notices.unregistered", 0)], [("gcn.notices.unregistered", 5)],
   [("gcn.notices.unregistered", "json")]⟩

/-- A well-formed JSON message on the unregistered topic. -/
def c3_message : Message :=
  ⟨"gcn.notices.unregistered", "\x7b\"alert_datetime\": \"D\"\x7d"⟩

/-- Counterexample for C3 as stated: the claim says the loop's counter for
a decoder-less format key is not incremented; but for a subscribed topic
with no registered decoder (the registry refuses it with the unknown-format
error) `parse_message` still increments the counter from 0 to 1 — the loop
never consults the registry at all. -/
theorem unregistered_topic_counter_incremented :
    _get_processor_factory "gcn.notices.unregistered"
      registered_gcn_processors = .error .valueError ∧
    dict_lookup c3_state.notice_counter "gcn.notices.unregistered"
      = some 0 ∧
    dict_lookup (parse_message dummy_lib c3_state c3_message "NOW").1.notice_counter
      "gcn.notices.unregistered" = some 1 := by
  refine ⟨rfl, by decide, by decide⟩

/-- C7 (amended).  A message is written out exactly while its topic counter
(after the increment) is strictly below the configured limit or the limit
is negative: at or over the limit `parse_message` returns with nothing
written.  The file is named from the topic and the notice time.  A
`"voevent"` payload is written verbatim, in binary.  A `"json"` payload is
*re-serialized* — `json.dump(json.loads(raw), indent=4)` — so the file
holds a pretty-printed rendering rather than the raw bytes (a missing
`alert_datetime` key is the one caught error, falling back to the receipt
time); and a `"json"` payload whose decode or whose datetime parse raises
anything but that `KeyError` escapes `parse_message` before any file is
written — the counter increment survives, the audit copy does not. -/
theorem save_message_routing (lib : ExtLib) (st : GcnState) (m : Message)
    (now : String) (c lim : Int)
    (hc : dict_lookup st.notice_counter m.topic = some c)
    (hlim : dict_lookup st.notice_limit m.topic = some lim) :
    (¬ (lim > c + 1 ∨ lim < 0) →
      parse_message lib st m now =
        ({ st with notice_counter := dict_set st.notice_counter m.topic (c + 1) },
         .ok none)) ∧
    (lim > c + 1 ∨ lim < 0 →
      (dict_lookup st.notice_type m.topic = some "voevent" →
        parse_message lib st m now =
          ({ st with notice_counter := dict_set st.notice_counter m.topic (c + 1) },
           .ok (some ⟨"notices/" ++ m.topic ++ "_notice_" ++ now ++ ".voevent",
                      m.value⟩))) ∧
      (∀ t v, dict_lookup st.notice_type m.topic = some "json" →
        extract_time lib m.value = .ok t → json_loads m.value = .ok v →
        parse_message lib st m now =
          ({ st with notice_counter := dict_set st.notice_counter m.topic (c + 1) },
           .ok (some ⟨"notices/" ++ m.topic ++ "_notice_" ++ t ++ ".json",
                      json_dumps_indent4 v⟩))) ∧
      (∀ v, dict_lookup st.notice_type m.topic = some "json" →
        extract_time lib m.value = .error .keyError →
        json_loads m.value = .ok v →
        parse_message lib st m now =
          ({ st with notice_counter := dict_set st.notice_counter m.topic (c + 1) },
           .ok (some ⟨"notices/" ++ m.topic ++ "_notice_" ++ now ++ ".json",
                      json_dumps_indent4 v⟩))) ∧
      (∀ e, dict_lookup st.notice_type m.topic = some "json" →
        extract_time lib m.value = .error e → e ≠ .keyError →
        parse_message lib st m now =
          ({ st with notice_counter := dict_set st.notice_counter m.topic (c + 1) },
           .error e))) := by
  refine ⟨?_, ?_⟩
  · intro hover
    simp only [parse_message, hc, hlim, if_neg hover]
  · intro hunder
    refine ⟨?_, ?_, ?_, ?_⟩
    · intro hv
      simp only [parse_message, save_message, hc, hlim, if_pos hunder, hv]
      simp
    · intro t v hj hex hload
      simp only [parse_message, save_message, hc, hlim, if_pos hunder, hj,
        hex, hload]
      simp
      rfl
    · intro v hj hex hload
      simp only [parse_message, save_message, hc, hlim, if_pos hunder, hj,
        hex, hload]
      simp
      rfl
    · intro e hj hex hne
      cases e with
      | keyError => exact absurd rfl hne
      | typeError =>
          simp only [parse_message, hc, hlim, if_pos hunder, hj, hex]
      | valueError =>
          simp only [parse_message, hc, hlim, if_pos hunder, hj, hex]
      | attributeError =>
          simp only [parse_message, hc, hlim, if_pos hunder, hj, hex]
      | jsonDecodeError =>
          simp only [parse_message, hc, hlim, if_pos hunder, hj, hex]
      | nameError =>
          simp only [parse_message, hc, hlim, if_pos hunder, hj, hex]

/-- The external-library instantiation for the C7 scenario: `dateutil`
parses the message's ISO timestamp `2025-01-01T00:00:00` to
`datetime(2025, 1, 1, 0, 0)`, which prints as `2025-01-01 00:00:00` in
file names; anything else raises `ParserError` (a `ValueError`). -/
def c7_lib : ExtLib :=
  { dummy_lib with
    dateparse := fun s =>
      if s = "2025-01-01T00:00:00" then .ok "2025-01-01 00:00:00"
      else .error .valueError }

/-- Witness for C7: at or over the limit nothing is saved; a VOEvent
message is saved verbatim; a JSON message with a parseable timestamp is
saved re-serialized; a JSON message without `alert_datetime` is saved under
the receipt time; a malformed JSON message raises with no file saved — each
via `save_message_routing` at concrete inputs. -/
theorem save_message_routing_witness :
    (parse_message c7_lib ⟨[("fu", 0)], [("fu", 1)], [("fu", "json")]⟩
      ⟨"fu", "\x7b\x7d"⟩ "NOW"
      = (⟨[("fu", 1)], [("fu", 1)], [("fu", "json")]⟩, .ok none)) ∧
    (parse_message c7_lib ⟨[("sw", 0)], [("sw", -1)], [("sw", "voevent")]⟩
      ⟨"sw", "<xml/>"⟩ "NOW"
      = (⟨[("sw", 1)], [("sw", -1)], [("sw", "voevent")]⟩,
         .ok (some ⟨"notices/sw_notice_NOW.voevent", "<xml/>"⟩))) ∧
    (parse_message c7_lib ⟨[("lg", 0)], [("lg", 9)], [("lg", "json")]⟩
      ⟨"lg", "\x7b\"alert_datetime\": \"2025-01-01T00:00:00\"\x7d"⟩ "NOW"
      = (⟨[("lg", 1)], [("lg", 9)], [("lg", "json")]⟩,
         .ok (some ⟨"notices/lg_notice_2025-01-01 00:00:00.json",
                    "\x7b\n    \"alert_datetime\": \"2025-01-01T00:00:00\"\n\x7d"⟩))) ∧
    (parse_message c7_lib ⟨[("hb", 0)], [("hb", 9)], [("hb", "json")]⟩
      ⟨"hb", "\x7b\"a\": 1\x7d"⟩ "NOW"
      = (⟨[("hb", 1)], [("hb", 9)], [("hb", "json")]⟩,
         .ok (some ⟨"notices/hb_notice_NOW.json",
                    "\x7b\n    \"a\": 1\n\x7d"⟩))) ∧
    (parse_message c7_lib ⟨[("lg", 0)], [("lg", 9)], [("lg", "json")]⟩
      ⟨"lg", "garbage"⟩ "NOW"
      = (⟨[("lg", 1)], [("lg", 9)], [("lg", "json")]⟩,
         .error .jsonDecodeError)) :=
  ⟨(save_message_routing c7_lib ⟨[("fu", 0)], [("fu", 1)], [("fu", "json")]⟩
      ⟨"fu", "\x7b\x7d"⟩ "NOW" 0 1 rfl rfl).1 (by decide),
   ((save_message_routing c7_lib ⟨[("sw", 0)], [("sw", -1)], [("sw", "voevent")]⟩
      ⟨"sw", "<xml/>"⟩ "NOW" 0 (-1) rfl rfl).2 (Or.inr (by decide))).1 rfl,
   ((save_message_routing c7_lib ⟨[("lg", 0)], [("lg", 9)], [("lg", "json")]⟩
      ⟨"lg", "\x7b\"alert_datetime\": \"2025-01-01T00:00:00\"\x7d"⟩ "NOW" 0 9
      rfl rfl).2 (Or.inl (by decide))).2.1 "2025-01-01 00:00:00"
      (.obj [("alert_datetime", .str "2025-01-01T00:00:00")]) rfl rfl rfl,
   ((save_message_routing c7_lib ⟨[("hb", 0)], [("hb", 9)], [("hb", "json")]⟩
      ⟨"hb", "\x7b\"a\": 1\x7d"⟩ "NOW" 0 9 rfl rfl).2
      (Or.inl (by decide))).2.2.1 (.obj [("a", .num 1)]) rfl rfl rfl,
   ((save_message_routing c7_lib ⟨[("lg", 0)], [("lg", 9)], [("lg", "json")]⟩
      ⟨"lg", "garbage"⟩ "NOW" 0 9 rfl rfl).2
      (Or.inl (by decide))).2.2.2 .jsonDecodeError rfl rfl (by decide)⟩

/-- The ingestion state of the C7 counterexample: one subscribed JSON topic
well under its limit. -/
def c7_state : GcnState := ⟨[("t", 0)], [("t", 5)], [("t", "json")]⟩

/-- A well-formed JSON message: its `alert_datetime` value
`2025-01-01T00:00:00` is a timestamp `dateutil` parses, and its raw
payload is written compactly (no newlines). -/
def c7_message : Message :=
  ⟨"t", "\x7b\"alert_datetime\": \"2025-01-01T00:00:00\"\x7d"⟩

/-- Counterexample for C7 as stated: the claim says the audit copy is
written *verbatim* in the payload's native encoding; this successfully
routed JSON message (decoded and timestamp-parsed without error) is saved,
but the file's contents are the pretty-printed re-serialization
`json.dump(json.loads(raw), indent=4)`, not the raw payload bytes. -/
theorem json_audit_copy_not_verbatim :
    parse_message c7_lib c7_state c7_message "NOW"
      = (⟨[("t", 1)], [("t", 5)], [("t", "json")]⟩,
         .ok (some ⟨"notices/t_notice_2025-01-01 00:00:00.json",
                    "\x7b\n    \"alert_datetime\": \"2025-01-01T00:00:00\"\n\x7d"⟩)) ∧
    "\x7b\n    \"alert_datetime\": \"2025-01-01T00:00:00\"\n\x7d" ≠ c7_message.value :=
  ⟨rfl, by decide⟩

/-- C1 (amended).  For events `e₁`, `e₂` with the same id, upserting `e₁`
into a store that does not yet hold that id and then upserting `e₂` leaves
exactly one row for the id; provided `e₂` carries a position, every mutable
column of that row equals `e₂`'s value (the spatial index being recomputed
from `e₂`'s position), `time_modified` is stamped with the second upsert's
time, and `time_created` still holds the first upsert's time.  (When `e₂`
carries no position, the position and spatial-index columns instead keep
their previous values — the counterexample to the unconditional claim.) -/
theorem add_event_upsert (lib : ExtLib) (nside : Nat) (rows : List Row)
    (now₁ now₂ : Nat) (e₁ e₂ : Event) (a d : Angle)
    (hid : e₁.index = e₂.index)
    (hclean : ∀ r ∈ rows, r.id ≠ e₂.index)
    (hpos : e₂.position = some (a, d))
    (hadv : now₁ < now₂) :
    ∃ r, add_event lib nside (add_event lib nside rows now₁ e₁) now₂ e₂
        = rows ++ [r] ∧
      get_event (rows ++ [r]) e₂.index = some r ∧
      ((rows ++ [r]).filter (fun q => q.id = e₂.index)).length = 1 ∧
      event_row_fields_match lib nside r e₂ ∧
      r.time_created = some now₁ ∧ r.time_modified = some now₂ ∧
      now₁ < now₂ := by
  have hclean₁ : ∀ r ∈ rows, r.id ≠ e₁.index := by
    rw [hid]
    exact hclean
  rw [add_event_fresh hclean₁]
  have huid : (apply_event_row lib nside now₁ e₁ (new_event_row now₁ e₁)).id
      = e₂.index := by
    rw [apply_event_row_id, new_event_row_id, hid]
  have hnil : ∀ r ∈ ([] : List Row), r.id ≠ e₂.index := by simp
  have hsplit : rows ++ [apply_event_row lib nside now₁ e₁ (new_event_row now₁ e₁)]
      = rows ++ apply_event_row lib nside now₁ e₁ (new_event_row now₁ e₁) :: [] := rfl
  rw [hsplit, add_event_existing hclean hnil huid]
  have h2id : (apply_event_row lib nside now₂ e₂
      (apply_event_row lib nside now₁ e₁ (new_event_row now₁ e₁))).id
      = e₂.index := by
    rw [apply_event_row_id]
    exact huid
  obtain ⟨htop, htc, hat, htu, htm, hre, hde, hda, hterr, hfar, hns, hrm,
    hposf, -⟩ := apply_event_row_fields lib nside now₂ e₂
      (apply_event_row lib nside now₁ e₁ (new_event_row now₁ e₁))
  obtain ⟨hra, hrau, hdec, hdecu, hhp⟩ := hposf a d hpos
  obtain ⟨-, htc1, -⟩ := apply_event_row_fields lib nside now₁ e₁
    (new_event_row now₁ e₁)
  refine ⟨_, rfl, get_event_sandwich hclean h2id,
    count_id_sandwich hclean hnil h2id, ?_, ?_, htm, hadv⟩
  · unfold event_row_fields_match
    rw [hpos]
    exact ⟨hat, htu, hra, hrau, hdec, hdecu, hre, hde, hhp, hda, hterr,
      hfar, hns, hrm⟩
  · rw [htc, htc1]
    rfl

/-- Witness event for C1: the first revision of an event, with a
position. -/
def w_e1 : Event :=
  { index := "W1", topic := "igwn.gwalert", alert_type := some "EARLYWARNING",
    time := some "T0", position := some (⟨1, "rad"⟩, ⟨2, "rad"⟩),
    position_err := none, distance := none, terrestrial_chance := some 0,
    false_alarm_rate := some 0, has_neutron_star := some 0,
    has_remnant := some 0, skymap := some [0] }

/-- Witness event for C1: the second revision, same id, new position and
fields. -/
def w_e2 : Event :=
  { index := "W1", topic := "igwn.gwalert", alert_type := some "UPDATE",
    time := some "T1", position := some (⟨30, "deg"⟩, ⟨40, "deg"⟩),
    position_err := some (1, 1), distance := some (5, 1),
    terrestrial_chance := some 1, false_alarm_rate := some 1,
    has_neutron_star := some 1, has_remnant := some 1, skymap := some [7] }

/-- Witness for C1: `add_event_upsert` applied to two concrete revisions of
the same event on an empty store. -/
theorem add_event_upsert_witness :
    ∃ r, add_event dummy_lib 64 (add_event dummy_lib 64 [] 1 w_e1) 2 w_e2
        = ([] : List Row) ++ [r] ∧
      get_event (([] : List Row) ++ [r]) w_e2.index = some r ∧
      ((([] : List Row) ++ [r]).filter (fun q => q.id = w_e2.index)).length = 1 ∧
      event_row_fields_match dummy_lib 64 r w_e2 ∧
      r.time_created = some 1 ∧ r.time_modified = some 2 ∧ 1 < 2 :=
  add_event_upsert dummy_lib 64 [] 1 2 w_e1 w_e2 ⟨30, "deg"⟩ ⟨40, "deg"⟩
    rfl (by simp) rfl (by decide)

/-- Counterexample event for C1: first revision, carrying a position. -/
def c1_e1 : Event :=
  { index := "S1", topic := "igwn.gwalert", alert_type := some "PRELIMINARY",
    time := some "T1", position := some (⟨10, "rad"⟩, ⟨20, "rad"⟩),
    position_err := none, distance := none, terrestrial_chance := some 0,
    false_alarm_rate := some 0, has_neutron_star := some 1,
    has_remnant := some 0, skymap := some [1] }

/-- Counterexample event for C1: second revision with the same id but no
position (as a retraction carries). -/
def c1_e2 : Event :=
  { c1_e1 with
    alert_type := some "RETRACTION"
    position := none
    time := none
    skymap := none }

/-- The row actually stored after upserting `c1_e1` then `c1_e2`. -/
def c1_final_row : Row :=
  { id := "S1", topic := some "igwn.gwalert",
    alert_type := some "RETRACTION", time_utc := none,
    time_created := some 1, time_modified := some 2, ra := some 10,
    ra_err := none, ra_unit := some "rad", dec := some 20, dec_err := none,
    dec_unit := some "rad", healpix_index := some 94,
    terrestrial_chance := some 0, false_alarm_rate := some 0,
    has_neutron_star := some 1, has_remnant := some 0, data := none }

/-- Counterexample for C1 as stated: after upserting `c1_e1` then `c1_e2`
(same id, but `c1_e2` carries no position) the stored row keeps `c1_e1`'s
position and spatial index — `ra = 10` where `c1_e2`'s value is empty — so
the row's mutable fields do not equal `c1_e2`'s values. -/
theorem upsert_keeps_old_position_when_absent :
    c1_e1.index = c1_e2.index ∧
    c1_e2.position = none ∧
    get_event (add_event dummy_lib 64 (add_event dummy_lib 64 [] 1 c1_e1) 2 c1_e2)
      "S1" = some c1_final_row ∧
    c1_final_row.ra = some 10 ∧
    ¬ event_row_fields_match dummy_lib 64 c1_final_row c1_e2 :=
  ⟨rfl, rfl, by decide, rfl, by decide⟩

/-- C2.  A RETRACTION gravitational-wave notice decodes to an event with
only `id` and `alert_type` set — `parse_notice` returns before any skymap,
time or classification extraction, whatever the rest of the record holds —
and upserting that event into a store already holding the id updates the
row's `alert_type` while leaving its position columns (`ra`, `ra_unit`,
`dec`, `dec_unit`) and its spatial index untouched (distance fields are
never stored at all, so they are untouched vacuously). -/
theorem retraction_updates_alert_type_only (lib : ExtLib) (nside now : Nat)
    (topic : String) (rec : LigoRecord) (rows₀ rows₁ : List Row) (x : Row)
    (hret : rec.alert_type = "RETRACTION")
    (h₀ : ∀ r ∈ rows₀, r.id ≠ rec.superevent_id)
    (h₁ : ∀ r ∈ rows₁, r.id ≠ rec.superevent_id)
    (hx : x.id = rec.superevent_id) :
    parse_notice lib topic rec = .ok (ligo_defaults topic rec) ∧
    (ligo_defaults topic rec).index = rec.superevent_id ∧
    (ligo_defaults topic rec).alert_type = some "RETRACTION" ∧
    (ligo_defaults topic rec).time = none ∧
    (ligo_defaults topic rec).position = none ∧
    (ligo_defaults topic rec).position_err = none ∧
    (ligo_defaults topic rec).distance = none ∧
    (ligo_defaults topic rec).skymap = none ∧
    (ligo_defaults topic rec).terrestrial_chance = none ∧
    (ligo_defaults topic rec).false_alarm_rate = none ∧
    (ligo_defaults topic rec).has_neutron_star = none ∧
    (ligo_defaults topic rec).has_remnant = none ∧
    ∃ x', add_event lib nside (rows₀ ++ x :: rows₁) now
        (ligo_defaults topic rec) = rows₀ ++ x' :: rows₁ ∧
      get_event (rows₀ ++ x' :: rows₁) rec.superevent_id = some x' ∧
      x'.alert_type = some "RETRACTION" ∧
      x'.ra = x.ra ∧ x'.ra_unit = x.ra_unit ∧
      x'.dec = x.dec ∧ x'.dec_unit = x.dec_unit ∧
      x'.healpix_index = x.healpix_index := by
  have hparse : parse_notice lib topic rec = .ok (ligo_defaults topic rec) := by
    unfold parse_notice
    rw [if_pos hret]
  have hat : (ligo_defaults topic rec).alert_type = some "RETRACTION" := by
    unfold ligo_defaults
    rw [hret]
  obtain ⟨-, -, hat', -, -, htm, -, -, -, -, -, -, -, hposn⟩ :=
    apply_event_row_fields lib nside now (ligo_defaults topic rec) x
  obtain ⟨hra, hrau, hdec, hdecu, hhp⟩ := hposn rfl
  have h2id : (apply_event_row lib nside now (ligo_defaults topic rec) x).id
      = rec.superevent_id := by
    rw [apply_event_row_id]
    exact hx
  refine ⟨hparse, rfl, hat, rfl, rfl, rfl, rfl, rfl, rfl, rfl, rfl, rfl,
    apply_event_row lib nside now (ligo_defaults topic rec) x,
    add_event_existing h₀ h₁ hx, get_event_sandwich h₀ h2id, ?_,
    hra, hrau, hdec, hdecu, hhp⟩
  rw [hat']
  exact hat

/-- A concrete stored row for the C2 witness. -/
def c2_row : Row :=
  { id := "S2", topic := some "igwn.gwalert",
    alert_type := some "PRELIMINARY", time_utc := some "T0",
    time_created := some 1, time_modified := some 1, ra := some 3,
    ra_err := none, ra_unit := some "rad", dec := some 4, dec_err := none,
    dec_unit := some "rad", healpix_index := some 71,
    terrestrial_chance := some 0, false_alarm_rate := some 0,
    has_neutron_star := some 0, has_remnant := some 0, data := some [2] }

/-- Witness for C2: `retraction_updates_alert_type_only` applied to a
concrete retraction record (with `"event": null`, as real retraction
payloads carry) and a store holding one previously populated row. -/
theorem retraction_updates_alert_type_only_witness :
    parse_notice dummy_lib "igwn.gwalert"
      (⟨"S2", "RETRACTION", none⟩ : LigoRecord)
      = .ok (ligo_defaults "igwn.gwalert" ⟨"S2", "RETRACTION", none⟩) ∧
    (ligo_defaults "igwn.gwalert" ⟨"S2", "RETRACTION", none⟩).index = "S2" ∧
    (ligo_defaults "igwn.gwalert" ⟨"S2", "RETRACTION", none⟩).alert_type
      = some "RETRACTION" ∧
    (ligo_defaults "igwn.gwalert" ⟨"S2", "RETRACTION", none⟩).time = none ∧
    (ligo_defaults "igwn.gwalert" ⟨"S2", "RETRACTION", none⟩).position = none ∧
    (ligo_defaults "igwn.gwalert" ⟨"S2", "RETRACTION", none⟩).position_err
      = none ∧
    (ligo_defaults "igwn.gwalert" ⟨"S2", "RETRACTION", none⟩).distance = none ∧
    (ligo_defaults "igwn.gwalert" ⟨"S2", "RETRACTION", none⟩).skymap = none ∧
    (ligo_defaults "igwn.gwalert" ⟨"S2", "RETRACTION", none⟩).terrestrial_chance
      = none ∧
    (ligo_defaults "igwn.gwalert" ⟨"S2", "RETRACTION", none⟩).false_alarm_rate
      = none ∧
    (ligo_defaults "igwn.gwalert" ⟨"S2", "RETRACTION", none⟩).has_neutron_star
      = none ∧
    (ligo_defaults "igwn.gwalert" ⟨"S2", "RETRACTION", none⟩).has_remnant
      = none ∧
    ∃ x', add_event dummy_lib 64 ([] ++ c2_row :: []) 9
        (ligo_defaults "igwn.gwalert" ⟨"S2", "RETRACTION", none⟩)
        = [] ++ x' :: [] ∧
      get_event ([] ++ x' :: []) "S2" = some x' ∧
      x'.alert_type = some "RETRACTION" ∧
      x'.ra = c2_row.ra ∧ x'.ra_unit = c2_row.ra_unit ∧
      x'.dec = c2_row.dec ∧ x'.dec_unit = c2_row.dec_unit ∧
      x'.healpix_index = c2_row.healpix_index :=
  retraction_updates_alert_type_only dummy_lib 64 9 "igwn.gwalert"
    ⟨"S2", "RETRACTION", none⟩ [] [] c2_row rfl (by simp) (by simp) rfl

/-- The gravitational-wave record of the C6 scenario: alert type
PRELIMINARY, superevent id MS999999, group CBC, a base64 sky-table payload
`s`, and the classification scalars. -/
def c6_record (s t : String) (q fv n m : Rat) : LigoRecord :=
  ⟨"MS999999", "PRELIMINARY", some ⟨"CBC", t, some s, some q, some fv,
    some n, some m⟩⟩

/-- The event `parse_notice` produces from the C6 record (established by
`gw_preliminary_end_to_end`). -/
def c6_decoded_event (lib : ExtLib) (t' : String) (bytes : List Nat)
    (q fv n m : Rat) : Event :=
  { index := "MS999999", topic := "igwn.gwalert",
    alert_type := some "PRELIMINARY", time := some t',
    position := some (lib.healpix_to_lonlat 0 (level_to_nside 0)),
    position_err := none, distance := some (100, 10),
    terrestrial_chance := some q, false_alarm_rate := some fv,
    has_neutron_star := some n, has_remnant := some m,
    skymap := some bytes }

/-- C6 (amended).  Feeding the PRELIMINARY/CBC message for MS999999 through
decode and store — for any library whose base64/FITS stage turns the
payload into the single-row sky table with `UNIQ = 4`, `PROBDENSITY`
maximal there, `DISTMEAN = 100`, `DISTSTD = 10` — yields a decoded event
with id MS999999, `distance = (100, 10)` and position equal to pixel 0 of
nside 1 (the `UNIQ = 4` pixel) in nested order, and a single stored row
whose coordinates are that position's values and whose `healpix_index` is
the configured-resolution bucket of that position.  The distance, however,
is *not* part of the stored row: the events table has no distance column
and the store's output is identical whatever the event's distance (the
deviation from the claim as stated). -/
theorem gw_preliminary_end_to_end (lib : ExtLib) (nside now : Nat)
    (s t t' : String) (bytes : List Nat) (q fv n m : Rat)
    (hstr : lib.strptime t = .ok t')
    (hb : lib.b64decode s = .ok bytes)
    (ht : lib.table_read bytes = .ok ⟨[⟨4, 1⟩], some 100, some 10⟩) :
    ∃ ev, parse_notice lib "igwn.gwalert" (c6_record s t q fv n m)
        = .ok ev ∧
      ev.index = "MS999999" ∧
      ev.alert_type = some "PRELIMINARY" ∧
      ev.distance = some (100, 10) ∧
      uniq_to_level_ipix 4 = (0, 0) ∧
      ev.position = some (lib.healpix_to_lonlat 0 (level_to_nside 0)) ∧
      ∃ r, add_event lib nside [] now ev = [r] ∧
        get_event [r] "MS999999" = some r ∧
        r.id = "MS999999" ∧
        r.ra = some (lib.healpix_to_lonlat 0 (level_to_nside 0)).1.value ∧
        r.ra_unit = some (lib.healpix_to_lonlat 0 (level_to_nside 0)).1.unit ∧
        r.dec = some (lib.healpix_to_lonlat 0 (level_to_nside 0)).2.value ∧
        r.dec_unit = some (lib.healpix_to_lonlat 0 (level_to_nside 0)).2.unit ∧
        r.healpix_index = some (lib.lonlat_to_healpix
          (lib.healpix_to_lonlat 0 (level_to_nside 0)).1
          (lib.healpix_to_lonlat 0 (level_to_nside 0)).2 nside) ∧
        (∀ dv, add_event lib nside [] now { ev with distance := dv }
          = add_event lib nside [] now ev) := by
  have hli : uniq_to_level_ipix 4 = (0, 0) := by decide
  refine ⟨c6_decoded_event lib t' bytes q fv n m, ?_, rfl, rfl, rfl, hli,
    rfl, ?_⟩
  · unfold parse_notice c6_record ligo_defaults c6_decoded_event
    dsimp only
    rw [hstr]
    dsimp only
    rw [hb]
    dsimp only
    rw [ht]
    rfl
  · have hclean : ∀ r ∈ ([] : List Row), r.id ≠ "MS999999" := by simp
    have hfresh := @add_event_fresh lib nside [] now
      (c6_decoded_event lib t' bytes q fv n m) (by simp)
    have hpp : (c6_decoded_event lib t' bytes q fv n m).position
        = some ((lib.healpix_to_lonlat 0 (level_to_nside 0)).1,
                (lib.healpix_to_lonlat 0 (level_to_nside 0)).2) :=
      congrArg some (Prod.mk.eta).symm
    obtain ⟨-, htc, -, -, -, -, -, -, -, -, -, -, hposf, -⟩ :=
      apply_event_row_fields lib nside now (c6_decoded_event lib t' bytes q fv n m)
        (new_event_row now (c6_decoded_event lib t' bytes q fv n m))
    obtain ⟨hra, hrau, hdec, hdecu, hhp⟩ :=
      hposf (lib.healpix_to_lonlat 0 (level_to_nside 0)).1
        (lib.healpix_to_lonlat 0 (level_to_nside 0)).2 hpp
    have h2id : (apply_event_row lib nside now
        (c6_decoded_event lib t' bytes q fv n m)
        (new_event_row now (c6_decoded_event lib t' bytes q fv n m))).id
        = "MS999999" := by
      rw [apply_event_row_id]
      rfl
    refine ⟨apply_event_row lib nside now
        (c6_decoded_event lib t' bytes q fv n m)
        (new_event_row now (c6_decoded_event lib t' bytes q fv n m)),
      by rw [hfresh]; rfl, ?_, h2id, hra, hrau, hdec, hdecu, hhp, ?_⟩
    · rw [show ([apply_event_row lib nside now
          (c6_decoded_event lib t' bytes q fv n m)
          (new_event_row now (c6_decoded_event lib t' bytes q fv n m))]
        : List Row) = [] ++ apply_event_row lib nside now
          (c6_decoded_event lib t' bytes q fv n m)
          (new_event_row now (c6_decoded_event lib t' bytes q fv n m)) :: []
        from rfl]
      exact get_event_sandwich hclean h2id
    · intro dv
      rw [add_event_fresh (by simp [c6_decoded_event]),
        add_event_fresh (by simp)]
      rfl

/-- The external-library instantiation of the C6 witness: the base64 stage
and the FITS table reader return the scenario's single-row sky table with
its distance metadata. -/
def c6_lib : ExtLib :=
  { dummy_lib with
    b64decode := fun _ => .ok [9]
    table_read := fun _ => .ok ⟨[⟨4, 1⟩], some 100, some 10⟩ }

/-- Witness for C6: `gw_preliminary_end_to_end` at the concrete library
`c6_lib` and concrete message fields. -/
theorem gw_preliminary_end_to_end_witness :
    ∃ ev, parse_notice c6_lib "igwn.gwalert"
        (c6_record "skypayload" "2025-01-01T00:00:00.000Z" 1 2 3 4)
        = .ok ev ∧
      ev.index = "MS999999" ∧
      ev.alert_type = some "PRELIMINARY" ∧
      ev.distance = some (100, 10) ∧
      uniq_to_level_ipix 4 = (0, 0) ∧
      ev.position = some (c6_lib.healpix_to_lonlat 0 (level_to_nside 0)) ∧
      ∃ r, add_event c6_lib 64 [] 5 ev = [r] ∧
        get_event [r] "MS999999" = some r ∧
        r.id = "MS999999" ∧
        r.ra = some (c6_lib.healpix_to_lonlat 0 (level_to_nside 0)).1.value ∧
        r.ra_unit = some (c6_lib.healpix_to_lonlat 0 (level_to_nside 0)).1.unit ∧
        r.dec = some (c6_lib.healpix_to_lonlat 0 (level_to_nside 0)).2.value ∧
        r.dec_unit = some (c6_lib.healpix_to_lonlat 0 (level_to_nside 0)).2.unit ∧
        r.healpix_index = some (c6_lib.lonlat_to_healpix
          (c6_lib.healpix_to_lonlat 0 (level_to_nside 0)).1
          (c6_lib.healpix_to_lonlat 0 (level_to_nside 0)).2 64) ∧
        (∀ dv, add_event c6_lib 64 [] 5 { ev with distance := dv }
          = add_event c6_lib 64 [] 5 ev) :=
  gw_preliminary_end_to_end c6_lib 64 5 "skypayload"
    "2025-01-01T00:00:00.000Z" "2025-01-01T00:00:00.000Z" [9] 1 2 3 4
    rfl rfl rfl

/-- A decoded C6-scenario event carrying the distance, as the counter-
example instantiates it. -/
def c6_event_with_distance : Event :=
  { index := "MS999999", topic := "igwn.gwalert",
    alert_type := some "PRELIMINARY", time := some "2025-01-01T00:00:00.000Z",
    position := some (⟨1, "rad"⟩, ⟨2, "rad"⟩),
    position_err := none, distance := some (100, 10),
    terrestrial_chance := some 1, false_alarm_rate := some 2,
    has_neutron_star := some 3, has_remnant := some 4, skymap := some [9] }

/-- Counterexample for C6 as stated: the claim requires the *stored* event
to carry `distance = (100, 10)`, but the events table has no distance
column at all (no `distance`, `distmean` or `diststd` entry in its schema)
and the stored state after `add_event` is bit-for-bit identical whether the
decoded event carries the distance or not — the store never records it. -/
theorem stored_event_has_no_distance :
    c6_event_with_distance.distance = some (100, 10) ∧
    ("distance" ∈ event_table_columns → False) ∧
    ("distmean" ∈ event_table_columns → False) ∧
    ("diststd" ∈ event_table_columns → False) ∧
    add_event dummy_lib 64 [] 5 c6_event_with_distance
      = add_event dummy_lib 64 [] 5
          { c6_event_with_distance with distance := none } :=
  ⟨rfl, by decide, by decide, by decide, by decide⟩

end Lo2t
